import Mathlib

/-!
Verification of the acquisition pipeline of `app-transcribe`.

The development shallowly embeds the TypeScript sources:
  * `src/lib/cobalt.ts`   — platform detection, resolution-service client,
    media fetching, title extraction;
  * `src/lib/storage.ts`  — storage-key generation;
  * `src/lib/compress.ts` — the FFmpeg transcoder with temp-file lifecycle;
  * the `POST` route handler (download orchestrator).

Strings are handled through their underlying `List Char`; JavaScript
exceptions are modelled with `Except String`; the filesystem of temporary
files is a list of paths; external effects (HTTP responses, the FFmpeg
subprocess, the blob store and the database) are supplied as explicit
oracle values so that every exit path of the code becomes a case of a
total function.
-/

/-! ## String helpers shared by the embedded modules -/

/-- Unanchored substring test on character lists: `containsSub pat s` is
true when `pat` occurs contiguously somewhere in `s`.  This is the meaning
of an unanchored literal regular expression `pat.test(s)`. -/
def containsSub (pat : List Char) : List Char → Bool
  | [] => pat.isEmpty
  | c :: rest => List.isPrefixOf pat (c :: rest) || containsSub pat rest

/-- Lower-case a character list (ASCII, as the embedded patterns are ASCII). -/
def lowerChars (cs : List Char) : List Char := cs.map Char.toLower

/-- Test of a case-insensitive alternation regex `/a|b|.../i` given as the
list of its literal alternatives: some alternative occurs as a substring of
the lower-cased input. -/
def regexTest (alternatives : List String) (s : String) : Bool :=
  alternatives.any (fun a => containsSub a.data (lowerChars s.data))

/-- The match of the anchored regex `\.[^/.]+$` against a character list:
`some pre` when the list ends in a dot followed by one or more characters
none of which is `/` or `.`, where `pre` is the part before that dot;
`none` when the regex does not match.  (`cobalt.ts` and the route handler
both use this regex, with replacement `""` resp. `".mp4"`.) -/
def extMatchSplit (cs : List Char) : Option (List Char) :=
  let rev := cs.reverse
  let ext := rev.takeWhile (fun c => !(c == '.') && !(c == '/'))
  match ext, rev.drop ext.length with
  | [], _ => none
  | _ :: _, '.' :: restTail => some restTail.reverse
  | _ :: _, _ => none

/-- `filename.replace(/\.[^\/.]+$/, "")` — strip a trailing extension. -/
def stripExtensionChars (cs : List Char) : List Char :=
  (extMatchSplit cs).getD cs

/-- `filename.replace(/\.[^\/.]+$/, ".mp4")` from the route handler — the
"renamed to `.mp4`" filename used after compression. -/
def replaceExtWithMp4 (filename : String) : String :=
  match extMatchSplit filename.data with
  | some pre => String.mk (pre ++ ".mp4".data)
  | none => filename

/-- `extractTitleFromFilename` from `src/lib/cobalt.ts`: strip the
extension, replace `_` and `-` by spaces, upper-case the first character
(`charAt(0).toUpperCase() + slice(1)`); the remaining characters are kept
unchanged. -/
def extractTitleFromFilename (filename : String) : String :=
  let withoutExt := stripExtensionChars filename.data
  let cleaned := withoutExt.map (fun c => if c == '_' || c == '-' then ' ' else c)
  match cleaned with
  | [] => ""
  | c :: rest => String.mk (c.toUpper :: rest)

/-- `originalFileName.split(".").pop()` from `generateFileKey`: the
segment after the last dot (the whole name when there is no dot, the empty
string when the name ends in a dot). -/
def fileExtOf (fileName : String) : String :=
  String.mk ((fileName.data.reverse.takeWhile (fun c => !(c == '.'))).reverse)

/-- `generateFileKey` from `src/lib/storage.ts`.  The source draws
`timestamp` from `Date.now()` and `randomString` from
`Math.random().toString(36).substring(2, 15)`; both are inputs of the
embedding, so one invocation is identified by the triple
`(timestamp, randomString, originalFileName)`. -/
def generateFileKey (timestamp : Nat) (randomString : String)
    (originalFileName : String) : String :=
  "videos/" ++ toString timestamp ++ "-" ++ randomString ++ "." ++
    fileExtOf originalFileName

/-- JavaScript `parseInt(s, 10)`: skip leading whitespace, an optional
sign, then the maximal run of decimal digits; `none` models `NaN` (no
digits found). -/
def parseIntJS (s : String) : Option Int :=
  let digitsVal : List Char → Option Nat := fun cs =>
    let ds := cs.takeWhile (fun c => c.isDigit)
    if ds.isEmpty then none
    else some (ds.foldl (fun acc c => acc * 10 + (c.toNat - '0'.toNat)) 0)
  let t := s.data.dropWhile (fun c => c == ' ' || c == '\t' || c == '\n' || c == '\r')
  match t with
  | '-' :: rest => (digitsVal rest).map (fun n => -(n : Int))
  | '+' :: rest => (digitsVal rest).map (fun n => (n : Int))
  | _ => (digitsVal t).map (fun n => (n : Int))

/-- JavaScript `h || dflt` for a nullable string `h`: `null` and the empty
string are falsy and give the default. -/
def headerOrDefault (h : Option String) (dflt : String) : String :=
  match h with
  | none => dflt
  | some s => if s == "" then dflt else s

/-- `s.endsWith(suffix)` stated on the underlying characters. -/
def strEndsWith (s suffixStr : String) : Bool :=
  List.isPrefixOf suffixStr.data.reverse s.data.reverse

/-! ## Platform detection (`src/lib/cobalt.ts`) -/

/-- One entry of `SUPPORTED_PLATFORMS`: name, the case-insensitive pattern
as its list of literal alternatives, and the icon. -/
structure PlatformEntry where
  name : String
  pattern : List String
  icon : String
deriving DecidableEq

/-- `SUPPORTED_PLATFORMS` from `src/lib/cobalt.ts`, in declaration order. -/
def SUPPORTED_PLATFORMS : List PlatformEntry :=
  [ ⟨"YouTube", ["youtube.com", "youtu.be"], "youtube"⟩
  , ⟨"TikTok", ["tiktok.com"], "tiktok"⟩
  , ⟨"Instagram", ["instagram.com"], "instagram"⟩
  , ⟨"LinkedIn", ["linkedin.com"], "linkedin"⟩
  , ⟨"Twitter/X", ["twitter.com", "x.com"], "twitter"⟩
  , ⟨"Vimeo", ["vimeo.com"], "vimeo"⟩ ]

/-- The `for` loop of `detectPlatform`: first entry whose pattern matches. -/
def detectLoop : List PlatformEntry → String → Option String
  | [], _ => none
  | p :: ps, url => if regexTest p.pattern url then some p.name else detectLoop ps url

/-- `detectPlatform` from `src/lib/cobalt.ts`. -/
def detectPlatform (url : String) : Option String :=
  detectLoop SUPPORTED_PLATFORMS url

/-- `isUrlSupported` from `src/lib/cobalt.ts`: `detectPlatform(url) !== null`. -/
def isUrlSupported (url : String) : Bool :=
  (detectPlatform url).isSome

/-! ## Resolution-service client and media fetcher (`src/lib/cobalt.ts`) -/

/-- One item of a `picker` response. -/
structure PickerItem where
  type : String
  url : String
  thumb : Option String
deriving DecidableEq

/-- The parsed body of a resolution-service response (`CobaltResponse`):
`tunnel`/`redirect` carry the media url and suggested filename, `picker`
the candidate items, `cerror` the upstream error code and optional
service context. -/
inductive CobaltResp where
  | tunnel (url : String) (filename : String)
  | redirect (url : String) (filename : String)
  | picker (items : List PickerItem)
  | cerror (code : String) (serviceContext : Option String)
deriving DecidableEq

/-- The transport-level view of the `fetch` of the resolution service:
`ok` is `response.ok`, `status`/`statusText` the HTTP status line, `body`
the parsed JSON. -/
structure HttpResp where
  ok : Bool
  status : Nat
  statusText : String
  body : CobaltResp
deriving DecidableEq

/-- `requestDownload` from `src/lib/cobalt.ts`.  The outcome of the
underlying `fetch` is the explicit input: `Except.error e` when the
network call itself rejects (unreachable service), `Except.ok resp`
otherwise.  A non-ok response makes the function throw
`Cobalt API error: {status} {statusText}`; otherwise the parsed body is
returned unchanged. -/
def requestDownload (fetchResult : Except String HttpResp) :
    Except String CobaltResp :=
  match fetchResult with
  | .error e => .error e
  | .ok resp =>
      if resp.ok then .ok resp.body
      else .error ("Cobalt API error: " ++ toString resp.status ++ " " ++ resp.statusText)

/-- The transport-level view of the media `fetch` in `downloadFromUrl`:
status line, the two headers the function reads (absent headers are
`none`), and the retrieved body bytes. -/
structure FetchResponse where
  ok : Bool
  status : Nat
  statusText : String
  contentTypeHeader : Option String
  contentLengthHeader : Option String
  body : List Nat
deriving DecidableEq

/-- The value `downloadFromUrl` resolves with.  `contentLength` is an
`Int` because the source computes it with `parseInt`, which can yield
negative values for signed headers. -/
structure DownloadResult where
  buffer : List Nat
  contentType : String
  contentLength : Int
deriving DecidableEq

/-- `downloadFromUrl` from `src/lib/cobalt.ts`.  A rejected `fetch`
propagates; a non-ok response throws `Download failed: ...`; otherwise
`contentType = headers.get("content-type") || "video/mp4"` and
`contentLength = parseInt(headers.get("content-length") || "0", 10)`
followed by `contentLength || buffer.length`, where both `NaN` and `0`
are falsy and fall back to the measured body length. -/
def downloadFromUrl (fetchResult : Except String FetchResponse) :
    Except String DownloadResult :=
  match fetchResult with
  | .error e => .error e
  | .ok r =>
      if r.ok then
        let contentType := headerOrDefault r.contentTypeHeader "video/mp4"
        let parsedLen := parseIntJS (headerOrDefault r.contentLengthHeader "0")
        let contentLength : Int :=
          match parsedLen with
          | none => (r.body.length : Int)
          | some n => if n = 0 then (r.body.length : Int) else n
        .ok ⟨r.body, contentType, contentLength⟩
      else .error ("Download failed: " ++ toString r.status ++ " " ++ r.statusText)

/-! ## Transcoder (`src/lib/compress.ts`) -/

/-- `getExtensionFromMimeType` from `src/lib/compress.ts`. -/
def getExtensionFromMimeType (mimeType : String) : String :=
  if mimeType == "video/mp4" then "mp4"
  else if mimeType == "video/webm" then "webm"
  else if mimeType == "video/quicktime" then "mov"
  else if mimeType == "video/x-msvideo" then "avi"
  else if mimeType == "video/x-matroska" then "mkv"
  else if mimeType == "video/mpeg" then "mpeg"
  else if mimeType == "video/3gpp" then "3gp"
  else "mp4"

/-- What the spawned FFmpeg process did: either it ran and exited with a
code (emitting `stderr`), or spawning itself failed. -/
inductive SpawnOutcome where
  | exited (code : Int) (stderr : String)
  | spawnFailure (msg : String)
deriving DecidableEq

/-- `stderr.slice(-500)`: the last 500 characters. -/
def sliceLast500 (s : String) : String :=
  String.mk (s.data.drop (s.data.length - 500))

/-- `runFFmpeg` from `src/lib/compress.ts`, as a function of the
subprocess outcome: exit code `0` resolves, any other exit code rejects
with `FFmpeg exited with code {code}: {stderr.slice(-500)}`, and a spawn
failure rejects with `FFmpeg spawn error: {message}`. -/
def runFFmpeg (outcome : SpawnOutcome) : Except String Unit :=
  match outcome with
  | .exited code stderr =>
      if code = 0 then .ok ()
      else .error ("FFmpeg exited with code " ++ toString code ++ ": " ++ sliceLast500 stderr)
  | .spawnFailure msg => .error ("FFmpeg spawn error: " ++ msg)

/-- `CompressionResult` from `src/lib/compress.ts`.  The source computes
`compressionRatio` as a JavaScript float; it is modelled in `ℚ` (with
Lean's `0`-denominator convention for an empty input, a case the source
turns into a float infinity). -/
structure CompressionResult where
  buffer : List Nat
  originalSize : Nat
  compressedSize : Nat
  compressionRatio : ℚ
deriving DecidableEq

/-- The oracles of one `compressVideo` invocation: whether `fs.writeFile`
threw (and its message), the FFmpeg subprocess outcome, whether a failed
run left a partial output file behind, whether `fs.readFile` threw, the
bytes FFmpeg wrote on success, and whether each of the two `fs.unlink`
calls in the `finally` block throws. -/
structure CompressEnv where
  writeResult : Option String
  ffmpeg : SpawnOutcome
  partialOutput : Bool
  readResult : Option String
  outputBytes : List Nat
  unlinkInputFails : Bool
  unlinkOutputFails : Bool
deriving DecidableEq

/-- The temporary input path `join(tmpdir(), inputId + "." + ext)`. -/
def tempInputPath (tempDir inputId inputMimeType : String) : String :=
  tempDir ++ "/" ++ inputId ++ "." ++ getExtensionFromMimeType inputMimeType

/-- The temporary output path `join(tmpdir(), outputId + ".mp4")`. -/
def tempOutputPath (tempDir outputId : String) : String :=
  tempDir ++ "/" ++ outputId ++ ".mp4"

/-- Remove a path from the filesystem (an `fs.unlink` that succeeds). -/
def removePath (path : String) (fs : List String) : List String :=
  fs.filter (fun p => !(p == path))

/-- `try { await fs.unlink(path) } catch { }`: when the unlink throws the
filesystem is untouched and the exception is swallowed. -/
def tryUnlink (fails : Bool) (path : String) (fs : List String) : List String :=
  if fails then fs else removePath path fs

/-- The `try` block of `compressVideo`: write the input file, run FFmpeg,
read the compressed output, build the `CompressionResult`.  Returns the
outcome together with the filesystem as it stands when control reaches
the `finally` block. -/
def compressVideoTry (inputBuffer : List Nat) (inputPath outputPath : String)
    (env : CompressEnv) (fs0 : List String) :
    Except String CompressionResult × List String :=
  match env.writeResult with
  | some e => (.error e, fs0)
  | none =>
      let fs1 := inputPath :: fs0
      match runFFmpeg env.ffmpeg with
      | .error e => (.error e, if env.partialOutput then outputPath :: fs1 else fs1)
      | .ok _ =>
          let fs2 := outputPath :: fs1
          match env.readResult with
          | some e => (.error e, fs2)
          | none =>
              (.ok { buffer := env.outputBytes
                   , originalSize := inputBuffer.length
                   , compressedSize := env.outputBytes.length
                   , compressionRatio :=
                       (1 - (env.outputBytes.length : ℚ) / (inputBuffer.length : ℚ)) * 100 },
               fs2)

/-- `compressVideo` from `src/lib/compress.ts`: the `try` block followed
by the `finally` block, which unlinks the input and then the output path,
each in its own swallowed `try`/`catch`.  The result (`Except`) is the
value `compressVideo` resolves or rejects with; the second component is
the filesystem after the `finally` block. -/
def compressVideo (inputBuffer : List Nat) (inputMimeType : String)
    (tempDir inputId outputId : String) (env : CompressEnv)
    (fs0 : List String) : Except String CompressionResult × List String :=
  let inputPath := tempInputPath tempDir inputId inputMimeType
  let outputPath := tempOutputPath tempDir outputId
  let step := compressVideoTry inputBuffer inputPath outputPath env fs0
  let fs2 := tryUnlink env.unlinkInputFails inputPath step.2
  let fs3 := tryUnlink env.unlinkOutputFails outputPath fs2
  (step.1, fs3)

/-- The route handler's compression step: `try { compressed = await
compressVideo(buffer, contentType); buffer = compressed.buffer; finalSize =
compressed.compressedSize; contentType = "video/mp4" } catch { /* keep the
original buffer, size and content type */ }`.  Returns the
`(buffer, finalSize, contentType)` triple the handler continues with,
together with the temporary filesystem. -/
def routeCompressStep (buffer : List Nat) (contentType : String)
    (tempDir inputId outputId : String) (env : CompressEnv)
    (fs0 : List String) : (List Nat × Nat × String) × List String :=
  let step := compressVideo buffer contentType tempDir inputId outputId env fs0
  match step.1 with
  | .ok compressed => ((compressed.buffer, compressed.compressedSize, "video/mp4"), step.2)
  | .error _ => ((buffer, buffer.length, contentType), step.2)

/-! ## Orchestrator (the `POST` route handler) -/

/-- The fields of the `prisma.video.create` call: the persisted
`VideoRecord` (creation timestamps and the generated id live in the
database and are not part of the handler's data). -/
structure VideoRecord where
  title : String
  fileName : String
  fileKey : String
  fileSize : Nat
  mimeType : String
  status : String
  platform : Option String
  originalUrl : String
deriving DecidableEq

/-- The state the handler mutates in the outside world: the keys uploaded
to the blob store and the persisted metadata records (most recent first,
as each effect conses). -/
structure World where
  uploaded : List String
  records : List VideoRecord
deriving DecidableEq

/-- The request body `DownloadRequest` of the route.  A missing `url`
field and an empty string are both falsy in the `!body.url` check, so the
empty string models both. -/
structure PostRequest where
  url : String
  videoQuality : Option String
  downloadMode : Option String
  compress : Option Bool
deriving DecidableEq

/-- Every external outcome one `POST` run can observe: the process-wide
compression switch, the FFmpeg availability probe, the resolution-service
call, the media fetch (per url), the transcoder oracles, the fresh
identifiers of the temp files and of the storage key, and whether the
upload and the database insert throw. -/
structure PostEnv where
  compressionEnabled : Bool
  ffmpegAvailable : Bool
  cobaltHttp : Except String HttpResp
  fetchMedia : String → Except String FetchResponse
  compressEnv : CompressEnv
  tempDir : String
  inputId : String
  outputId : String
  keyTimestamp : Nat
  keyRandom : String
  uploadErr : Option String
  createErr : Option String

/-- The handler's response: a JSON error with its HTTP status, or the
success payload built from the created record. -/
inductive PostResult where
  | jsonError (status : Nat) (message : String)
  | success (video : VideoRecord)
deriving DecidableEq

/-- `body.compress !== false && COMPRESSION_ENABLED`. -/
def shouldCompressFlag (req : PostRequest) (env : PostEnv) : Bool :=
  (req.compress != some false) && env.compressionEnabled

/-- JavaScript template interpolation of the nullable platform. -/
def platformString (platform : Option String) : String :=
  match platform with
  | some p => p
  | none => "null"

/-- The tail every successful branch of the handler shares: `await
uploadFile(fileKey, ...)` then `await prisma.video.create(...)`.  An
upload failure throws before anything is stored; a create failure throws
after the upload, leaving the uploaded key without a record (the orphaned
blob); thrown errors reach the handler's top-level `catch`, which answers
with status 500. -/
def uploadAndPersist (w : World) (fileKey : String) (video : VideoRecord)
    (env : PostEnv) : PostResult × World :=
  match env.uploadErr with
  | some e => (.jsonError 500 e, w)
  | none =>
      let w1 : World := { w with uploaded := fileKey :: w.uploaded }
      match env.createErr with
      | some e => (.jsonError 500 e, w1)
      | none => (.success video, { w1 with records := video :: w1.records })

/-- The `POST` route handler: validate the url, resolve through the
resolution service, branch on the response variant, fetch the media,
optionally compress, upload, persist, or fall into the top-level `catch`
(status 500) when a step throws. -/
def POST (req : PostRequest) (env : PostEnv) (w : World) : PostResult × World :=
  if req.url == "" then (.jsonError 400 "URL is required", w)
  else if !isUrlSupported req.url then
    (.jsonError 400 "URL is not supported. Try YouTube, TikTok, Instagram, or LinkedIn.", w)
  else
    let platform := detectPlatform req.url
    let shouldCompress := shouldCompressFlag req env
    match requestDownload env.cobaltHttp with
    | .error e => (.jsonError 500 e, w)
    | .ok (.cerror code _) => (.jsonError 400 ("Download failed: " ++ code), w)
    | .ok (.picker items) =>
        match items.find? (fun item => item.type == "video") with
        | none => (.jsonError 400 "No video found in the content", w)
        | some firstVideo =>
            match downloadFromUrl (env.fetchMedia firstVideo.url) with
            | .error e => (.jsonError 500 e, w)
            | .ok dl =>
                let step :=
                  if shouldCompress && env.ffmpegAvailable then
                    (routeCompressStep dl.buffer dl.contentType env.tempDir
                      env.inputId env.outputId env.compressEnv []).1
                  else (dl.buffer, dl.buffer.length, dl.contentType)
                let fileKey := generateFileKey env.keyTimestamp env.keyRandom "video.mp4"
                let video : VideoRecord :=
                  { title := "Video from " ++ platformString platform
                  , fileName := "video.mp4"
                  , fileKey := fileKey
                  , fileSize := step.2.1
                  , mimeType := step.2.2
                  , status := "COMPLETED"
                  , platform := platform
                  , originalUrl := req.url }
                uploadAndPersist w fileKey video env
    | .ok (.tunnel downloadUrl filename) | .ok (.redirect downloadUrl filename) =>
        match downloadFromUrl (env.fetchMedia downloadUrl) with
        | .error e => (.jsonError 500 e, w)
        | .ok dl =>
            let step :=
              if shouldCompress && env.ffmpegAvailable then
                (routeCompressStep dl.buffer dl.contentType env.tempDir
                  env.inputId env.outputId env.compressEnv []).1
              else (dl.buffer, dl.buffer.length, dl.contentType)
            let compressedFilename := replaceExtWithMp4 filename
            let fileKey := generateFileKey env.keyTimestamp env.keyRandom compressedFilename
            let video : VideoRecord :=
              { title := extractTitleFromFilename filename
              , fileName := compressedFilename
              , fileKey := fileKey
              , fileSize := step.2.1
              , mimeType := step.2.2
              , status := "COMPLETED"
              , platform := platform
              , originalUrl := req.url }
            uploadAndPersist w fileKey video env

/-! ## Sample environments used by concrete runs -/

/-- A transcoder run in which everything succeeds and FFmpeg writes two
bytes of output. -/
def sampleCompressOk : CompressEnv :=
  { writeResult := none
  , ffmpeg := .exited 0 ""
  , partialOutput := false
  , readResult := none
  , outputBytes := [7, 7]
  , unlinkInputFails := false
  , unlinkOutputFails := false }

/-- A fully successful run for the end-to-end direct-path scenario of the
spec: the resolution service answers `tunnel` with suggested filename
`My_Video-Clip.mp4`, the media fetch returns four bytes, compression,
upload and persistence all succeed. -/
def sampleEnvDirect : PostEnv :=
  { compressionEnabled := true
  , ffmpegAvailable := true
  , cobaltHttp := Except.ok ⟨true, 200, "OK", .tunnel "https://cdn/example.mp4" "My_Video-Clip.mp4"⟩
  , fetchMedia := fun _ => Except.ok ⟨true, 200, "OK", some "video/mp4", some "4", [9, 9, 9, 9]⟩
  , compressEnv := sampleCompressOk
  , tempDir := "/tmp", inputId := "in1", outputId := "out1"
  , keyTimestamp := 1700000000000, keyRandom := "abc123"
  , uploadErr := none, createErr := none }

/-- The same successful run, but the resolution service suggests the
extension-less filename `video`. -/
def sampleEnvNoExt : PostEnv :=
  { sampleEnvDirect with
      cobaltHttp := Except.ok ⟨true, 200, "OK", .tunnel "https://cdn/x" "video"⟩
    , keyTimestamp := 5, keyRandom := "abc" }

/-! ## Claim C2 — transport failures of the resolution client -/

/-- Claim C2 counterexample: a non-success HTTP response does not produce
a `Failure` value with code `transport_error` — `requestDownload` throws
`Cobalt API error: 500 Internal Server Error` instead of returning. -/
theorem c2_transport_error_thrown :
    requestDownload (Except.ok ⟨false, 500, "Internal Server Error", .cerror "x" none⟩)
      = Except.error "Cobalt API error: 500 Internal Server Error" := rfl

/-- Claim C2 (amended): a transport or protocol failure makes the resolve
operation throw rather than return — a non-success HTTP response rejects
with `Cobalt API error: {status} {statusText}` and an unreachable service
propagates the fetch error unchanged; no `Failure{code:"transport_error"}`
value is produced anywhere. -/
theorem c2_transport_failure_throws :
    (∀ r : HttpResp, r.ok = false →
        requestDownload (Except.ok r)
          = Except.error ("Cobalt API error: " ++ toString r.status ++ " " ++ r.statusText))
    ∧ (∀ e : String, requestDownload (Except.error e) = Except.error e) := by
  constructor
  · intro r h
    simp [requestDownload, h]
  · intro e
    rfl

/-- Claim C2 witness: the amended statement at a concrete 404 response. -/
theorem c2_witness :
    requestDownload (Except.ok ⟨false, 404, "Not Found", .cerror "c" none⟩)
      = Except.error "Cobalt API error: 404 Not Found" :=
  c2_transport_failure_throws.1 ⟨false, 404, "Not Found", .cerror "c" none⟩ rfl

/-! ## Claim C4 — title derivation on the direct path -/

/-- Claim C4 counterexample: the title derived from `My_Video-Clip.mp4`
is not `My video clip` — the code upper-cases the first character but
never lower-cases the rest. -/
theorem c4_title_not_lowercased :
    extractTitleFromFilename "My_Video-Clip.mp4" ≠ "My video clip" := by decide

/-- Claim C4 (amended): the persisted title is the suggested filename
with the extension stripped, separators replaced by spaces and the first
character upper-cased, the remaining characters keeping their original
case; for `My_Video-Clip.mp4` the persisted title is exactly
`My Video Clip`. -/
theorem c4_title_derivation :
    extractTitleFromFilename "My_Video-Clip.mp4" = "My Video Clip"
    ∧ (POST ⟨"https://www.youtube.com/watch?v=abc", some "720", none, some true⟩
          sampleEnvDirect ⟨[], []⟩).2.records.map VideoRecord.title
        = ["My Video Clip"] := by
  exact ⟨rfl, rfl⟩

/-! ## Claim C5 — stored filename after successful compression -/

/-- Claim C5 evaluation at the failing input: for a `Direct` result whose
suggested filename `video` has no extension, a run in which compression
succeeds persists `fileName = "video"` and storage key
`videos/5-abc.video`, neither ending in `.mp4` — although the handler
comments the key generation with "always use .mp4 after compression". -/
theorem c5_missing_extension_eval :
    replaceExtWithMp4 "video" = "video"
    ∧ (POST ⟨"https://youtu.be/x", none, none, none⟩ sampleEnvNoExt
          ⟨[], []⟩).2.records.map VideoRecord.fileName = ["video"]
    ∧ (POST ⟨"https://youtu.be/x", none, none, none⟩ sampleEnvNoExt
          ⟨[], []⟩).2.records.map VideoRecord.fileKey = ["videos/5-abc.video"]
    ∧ strEndsWith "video" ".mp4" = false
    ∧ strEndsWith "videos/5-abc.video" ".mp4" = false := by
  exact ⟨rfl, rfl, rfl, rfl, rfl⟩

/-! ## Claim C7 — content length reported by the media fetcher -/

/-- Claim C7 counterexample: the header `content-length: 0` is present
and numeric, yet the returned `contentLength` is the measured body length
`5`, not the header value `0` — the string `"0"` parses to the falsy `0`
and falls back to `buffer.length`. -/
theorem c7_zero_header :
    parseIntJS "0" = some 0
    ∧ downloadFromUrl (Except.ok ⟨true, 200, "OK", some "video/mp4", some "0", [1, 2, 3, 4, 5]⟩)
        = Except.ok ⟨[1, 2, 3, 4, 5], "video/mp4", 5⟩ := by
  exact ⟨rfl, rfl⟩

/-- Claim C7 (amended): for a successful response, `contentLength` equals
the value `parseInt` extracts from the `content-length` header whenever
that value is non-zero (including a numeric prefix of an otherwise
invalid header), and equals the measured byte length of the body whenever
the header is absent, unparsable, or parses to `0`. -/
theorem c7_content_length (r : FetchResponse) (h : r.ok = true) :
    (∀ n : Int, parseIntJS (headerOrDefault r.contentLengthHeader "0") = some n → n ≠ 0 →
        downloadFromUrl (Except.ok r)
          = Except.ok ⟨r.body, headerOrDefault r.contentTypeHeader "video/mp4", n⟩)
    ∧ ((parseIntJS (headerOrDefault r.contentLengthHeader "0") = none
          ∨ parseIntJS (headerOrDefault r.contentLengthHeader "0") = some 0) →
        downloadFromUrl (Except.ok r)
          = Except.ok ⟨r.body, headerOrDefault r.contentTypeHeader "video/mp4", (r.body.length : Int)⟩) := by
  constructor
  · intro n hp hn
    simp [downloadFromUrl, h, hp, hn]
  · rintro (hp | hp) <;> simp [downloadFromUrl, h, hp]

/-- Claim C7 witness: the amended statement at a response whose header
reads `7` over a three-byte body. -/
theorem c7_witness :
    downloadFromUrl (Except.ok ⟨true, 200, "OK", some "video/mp4", some "7", [1, 2, 3]⟩)
      = Except.ok ⟨[1, 2, 3], "video/mp4", 7⟩ :=
  (c7_content_length ⟨true, 200, "OK", some "video/mp4", some "7", [1, 2, 3]⟩ rfl).1
    7 (by decide) (by decide)

/-! ## Claim C9 — distinctness of generated storage keys -/

/-- Claim C9 counterexample: two distinct invocations of
`generateFileKey` — different original filenames — made in the same
millisecond and drawing the same `Math.random` value receive the same
key, because only the timestamp, the random string and the extension
enter the key. -/
theorem c9_key_collision :
    generateFileKey 1699999999999 "k7f3q9" "video.mp4"
      = generateFileKey 1699999999999 "k7f3q9" "clip.mp4" := rfl

/-- Claim C9 (amended): distinctness of generated keys relies on the
random component — two invocations whose random strings differ (at equal
length) always receive different keys, whatever the timestamps coincide
to and whatever the filenames are; nothing prevents equal random draws,
so same-millisecond uniqueness is not guaranteed. -/
theorem c9_key_distinct (t : Nat) (r1 r2 f1 f2 : String)
    (hlen : r1.length = r2.length) (hne : r1 ≠ r2) :
    generateFileKey t r1 f1 ≠ generateFileKey t r2 f2 := by
  intro hEq
  have hd := congrArg String.data hEq
  simp only [generateFileKey, String.data_append, List.append_assoc] at hd
  have h1 := List.append_cancel_left hd
  have h2 := List.append_cancel_left h1
  have h3 := List.append_cancel_left h2
  have h4 := (List.append_inj h3 hlen).1
  apply hne
  cases r1
  cases r2
  exact congrArg String.mk h4

/-- Claim C9 witness: the amended statement at two concrete random
strings drawn in the same millisecond. -/
theorem c9_witness :
    generateFileKey 1699999999999 "aa1" "video.mp4"
      ≠ generateFileKey 1699999999999 "ab2" "clip.mp4" :=
  c9_key_distinct 1699999999999 "aa1" "ab2" "video.mp4" "clip.mp4" rfl (by decide)

/-! ## Claim C10 — platform detection order and substring semantics -/

/-- The platform loop returns the name of the first entry whose pattern
matches, i.e. it agrees with `List.find?` over the declaration order. -/
theorem detectLoop_eq_find (l : List PlatformEntry) (url : String) :
    detectLoop l url
      = (l.find? (fun p => regexTest p.pattern url)).map PlatformEntry.name := by
  induction l with
  | nil => rfl
  | cons p ps ih =>
      cases hp : regexTest p.pattern url with
      | false => simpa [detectLoop, List.find?_cons, hp] using ih
      | true => simp [detectLoop, List.find?_cons, hp]

/-- Claim C10: `detectPlatform` tests the six patterns in declaration
order and returns the first match (`List.find?` over
`SUPPORTED_PLATFORMS`) or `none`; `isUrlSupported` accepts exactly the
strings in which some platform pattern occurs as an unanchored
case-insensitive substring — including a platform domain hidden in the
query of an unrelated host — and a string matching several patterns is
classified as the earliest-declared platform. -/
theorem c10_platform_detection :
    (∀ url : String,
        detectPlatform url
          = (SUPPORTED_PLATFORMS.find? (fun p => regexTest p.pattern url)).map PlatformEntry.name)
    ∧ (∀ url : String,
        isUrlSupported url = true ↔ ∃ p ∈ SUPPORTED_PLATFORMS, regexTest p.pattern url = true)
    ∧ isUrlSupported "https://evil.example/path?next=youtube.com" = true
    ∧ detectPlatform "https://site.test/?a=tiktok.com&b=youtube.com" = some "YouTube"
    ∧ detectPlatform "https://example.org/no-platform-here" = none := by
  refine ⟨fun url => detectLoop_eq_find _ _, fun url => ?_, by decide, by decide, by decide⟩
  constructor
  · intro h
    rw [isUrlSupported, detectPlatform, detectLoop_eq_find] at h
    cases hf : SUPPORTED_PLATFORMS.find? (fun p => regexTest p.pattern url) with
    | none => rw [hf] at h; simp at h
    | some p =>
        have hp := List.find?_some hf
        exact ⟨p, List.mem_of_find?_eq_some hf, hp⟩
  · rintro ⟨p, hmem, hp⟩
    rw [isUrlSupported, detectPlatform, detectLoop_eq_find]
    cases hf : SUPPORTED_PLATFORMS.find? (fun q => regexTest q.pattern url) with
    | none =>
        rw [List.find?_eq_none] at hf
        exact absurd hp (hf p hmem)
    | some q => rfl

/-- Claim C10 witness: the characterization applied to a concrete
supported url. -/
theorem c10_witness :
    isUrlSupported "https://www.youtube.com/watch?v=abc" = true :=
  (c10_platform_detection.2.1 "https://www.youtube.com/watch?v=abc").mpr
    ⟨⟨"YouTube", ["youtube.com", "youtu.be"], "youtube"⟩, by decide, by decide⟩

/-! ## Claim C1 — what a failing encoder does to the compress call -/

/-- A failing FFmpeg run: a non-zero exit code or a spawn failure. -/
def ffmpegFailed : SpawnOutcome → Bool
  | .exited code _ => code != 0
  | .spawnFailure _ => true

/-- A failing FFmpeg run makes the `try` block of `compressVideo` end in
a rejection (the write may already have rejected with its own error). -/
theorem compressVideoTry_error (inputBuffer : List Nat) (inputPath outputPath : String)
    (env : CompressEnv) (fs0 : List String) (h : ffmpegFailed env.ffmpeg = true) :
    ∃ e, (compressVideoTry inputBuffer inputPath outputPath env fs0).1 = Except.error e := by
  cases hw : env.writeResult with
  | some e => exact ⟨e, by simp [compressVideoTry, hw]⟩
  | none =>
      cases hf : env.ffmpeg with
      | exited code stderr =>
          have hc : ¬ code = 0 := by
            intro h0
            rw [hf, h0] at h
            simp [ffmpegFailed] at h
          exact ⟨"FFmpeg exited with code " ++ toString code ++ ": " ++ sliceLast500 stderr,
            by simp [compressVideoTry, hw, runFFmpeg, hf, hc]⟩
      | spawnFailure m =>
          exact ⟨"FFmpeg spawn error: " ++ m,
            by simp [compressVideoTry, hw, runFFmpeg, hf]⟩

/-- Claim C1 counterexample: with FFmpeg exiting with code 1, the
`compressVideo` promise rejects with `FFmpeg exited with code 1: boom` —
an exception observable outside the Transcoder; no `succeeded=false`
outcome value exists (`CompressionResult` carries no such flag). -/
theorem c1_compress_error_escapes :
    (compressVideo [1, 2, 3] "video/mp4" "/tmp" "in1" "out1"
        ⟨none, .exited 1 "boom", false, none, [], false, false⟩ []).1
      = Except.error "FFmpeg exited with code 1: boom" := rfl

/-- Claim C1 (amended): a non-zero encoder exit code or a spawn failure
makes `compressVideo` reject with an error — there is no
`succeeded=false` result value — and the orchestrator's `try`/`catch`
around the compression step swallows that rejection and continues with
the original buffer, byte count and content type, so no exception is
observable outside the orchestrator. -/
theorem c1_compress_failure_falls_back (buffer : List Nat) (contentType : String)
    (tempDir inputId outputId : String) (env : CompressEnv) (fs0 : List String)
    (h : ffmpegFailed env.ffmpeg = true) :
    (∃ e, (compressVideo buffer contentType tempDir inputId outputId env fs0).1
            = Except.error e)
    ∧ (routeCompressStep buffer contentType tempDir inputId outputId env fs0).1
        = (buffer, buffer.length, contentType) := by
  obtain ⟨e, he⟩ := compressVideoTry_error buffer
    (tempInputPath tempDir inputId contentType) (tempOutputPath tempDir outputId) env fs0 h
  have hc : (compressVideo buffer contentType tempDir inputId outputId env fs0).1
      = Except.error e := he
  refine ⟨⟨e, hc⟩, ?_⟩
  simp [routeCompressStep, hc]

/-- Claim C1 witness: the amended statement at a concrete spawn failure. -/
theorem c1_witness :
    (∃ e, (compressVideo [1] "video/webm" "/tmp" "i" "o"
            ⟨none, .spawnFailure "ENOENT", false, none, [], false, false⟩ []).1
          = Except.error e)
    ∧ (routeCompressStep [1] "video/webm" "/tmp" "i" "o"
          ⟨none, .spawnFailure "ENOENT", false, none, [], false, false⟩ []).1
        = ([1], 1, "video/webm") :=
  c1_compress_failure_falls_back [1] "video/webm" "/tmp" "i" "o"
    ⟨none, .spawnFailure "ENOENT", false, none, [], false, false⟩ [] rfl

/-! ## Claim C3 — temp-file cleanup on every exit path -/

/-- A swallowed-failure unlink leaves the filesystem untouched. -/
theorem tryUnlink_true (path : String) (fs : List String) :
    tryUnlink true path fs = fs := rfl

/-- A successful unlink performs the removal. -/
theorem tryUnlink_false (path : String) (fs : List String) :
    tryUnlink false path fs = removePath path fs := rfl

/-- A successful unlink removes its path. -/
theorem not_mem_removePath (path : String) (fs : List String) :
    path ∉ removePath path fs := by
  simp [removePath, List.mem_filter]

/-- Removing one path never resurrects another. -/
theorem not_mem_removePath_of_not_mem {x : String} (path : String) {fs : List String}
    (h : x ∉ fs) : x ∉ removePath path fs := by
  intro hx
  exact h (List.mem_filter.mp hx).1

/-- Claim C3: on every exit path of `compressVideo` — success, non-zero
encoder exit, spawn failure, a failing write or read of the temp files
(caller cancellation is not a separate exit path: the promise always runs
to completion) — the `finally` block removes both the temporary input
file and the temporary output path whenever the respective unlink
succeeds, and a failure of either unlink is swallowed: it never changes
the value `compressVideo` returns or rejects with. -/
theorem c3_temp_cleanup (buffer : List Nat) (mime : String)
    (tempDir inputId outputId : String) (env : CompressEnv) (fs0 : List String) :
    (env.unlinkInputFails = false →
        tempInputPath tempDir inputId mime
          ∉ (compressVideo buffer mime tempDir inputId outputId env fs0).2)
    ∧ (env.unlinkOutputFails = false →
        tempOutputPath tempDir outputId
          ∉ (compressVideo buffer mime tempDir inputId outputId env fs0).2)
    ∧ (∀ b1 b2 : Bool,
        (compressVideo buffer mime tempDir inputId outputId
            { env with unlinkInputFails := b1, unlinkOutputFails := b2 } fs0).1
          = (compressVideo buffer mime tempDir inputId outputId env fs0).1) := by
  refine ⟨?_, ?_, fun b1 b2 => rfl⟩
  · intro h
    show tempInputPath tempDir inputId mime ∉
      tryUnlink env.unlinkOutputFails (tempOutputPath tempDir outputId)
        (tryUnlink env.unlinkInputFails (tempInputPath tempDir inputId mime)
          (compressVideoTry buffer (tempInputPath tempDir inputId mime)
            (tempOutputPath tempDir outputId) env fs0).2)
    rw [h, tryUnlink_false]
    cases hb : env.unlinkOutputFails with
    | true => rw [tryUnlink_true]; exact not_mem_removePath _ _
    | false =>
        rw [tryUnlink_false]
        exact not_mem_removePath_of_not_mem _ (not_mem_removePath _ _)
  · intro h
    show tempOutputPath tempDir outputId ∉
      tryUnlink env.unlinkOutputFails (tempOutputPath tempDir outputId)
        (tryUnlink env.unlinkInputFails (tempInputPath tempDir inputId mime)
          (compressVideoTry buffer (tempInputPath tempDir inputId mime)
            (tempOutputPath tempDir outputId) env fs0).2)
    rw [h, tryUnlink_false]
    exact not_mem_removePath _ _

/-- Claim C3 witness: cleanup at a concrete non-zero-exit run that left a
partial output file, and invariance of the result under a failing unlink. -/
theorem c3_witness :
    ("/tmp/in1.mp4" ∉ (compressVideo [1, 2, 3] "video/mp4" "/tmp" "in1" "out1"
        ⟨none, .exited 1 "x", true, none, [], false, false⟩ []).2)
    ∧ ("/tmp/out1.mp4" ∉ (compressVideo [1, 2, 3] "video/mp4" "/tmp" "in1" "out1"
        ⟨none, .exited 1 "x", true, none, [], false, false⟩ []).2)
    ∧ (compressVideo [1, 2, 3] "video/mp4" "/tmp" "in1" "out1"
        ⟨none, .exited 1 "x", true, none, [], true, true⟩ []).1
      = (compressVideo [1, 2, 3] "video/mp4" "/tmp" "in1" "out1"
        ⟨none, .exited 1 "x", true, none, [], false, false⟩ []).1 := by
  have h := c3_temp_cleanup [1, 2, 3] "video/mp4" "/tmp" "in1" "out1"
    ⟨none, .exited 1 "x", true, none, [], false, false⟩ []
  exact ⟨h.1 rfl, h.2.1 rfl, h.2.2 true true⟩

/-! ## Claim C6 — picker selection and the no-video failure -/

/-- Claim C6: on a `Picker` resolution result the handler selects the
first item of kind `video` (`find?` over the item order, skipping any
run of non-video items); when no video-kind item exists the run answers
with the 400 error `No video found in the content` and the outside world
— uploads and records alike — is left exactly as it was: no `VideoRecord`
is persisted. -/
theorem c6_picker_no_video :
    (∀ (req : PostRequest) (env : PostEnv) (w : World) (items : List PickerItem),
        req.url ≠ "" → isUrlSupported req.url = true →
        requestDownload env.cobaltHttp = Except.ok (CobaltResp.picker items) →
        (∀ item ∈ items, ¬ item.type = "video") →
        POST req env w = (.jsonError 400 "No video found in the content", w))
    ∧ (∀ (pre post : List PickerItem) (v : PickerItem),
        (∀ item ∈ pre, ¬ item.type = "video") → v.type = "video" →
        (pre ++ v :: post).find? (fun item => item.type == "video") = some v) := by
  constructor
  · intro req env w items h1 h2 h3 h4
    have hu : (req.url == "") = false := beq_eq_false_iff_ne.mpr h1
    have hf : items.find? (fun item => item.type == "video") = none := by
      rw [List.find?_eq_none]
      intro x hx
      simpa using h4 x hx
    simp [POST, hu, h2, h3, hf]
  · intro pre post v hpre hv
    induction pre with
    | nil => simp [List.find?_cons, hv]
    | cons a as ih =>
        have ha : (a.type == "video") = false := by
          simpa using hpre a (by simp)
        simp only [List.cons_append, List.find?_cons, ha]
        exact ih (fun item hi => hpre item (by simp [hi]))

/-- Claim C6 witness: a picker holding one photo item leaves the world
unchanged and reports the no-video error. -/
theorem c6_witness :
    POST ⟨"https://youtu.be/x", none, none, none⟩
        { sampleEnvDirect with
            cobaltHttp := Except.ok ⟨true, 200, "OK", .picker [⟨"photo", "u1", none⟩]⟩ }
        ⟨[], []⟩
      = (.jsonError 400 "No video found in the content", ⟨[], []⟩) :=
  c6_picker_no_video.1 _ _ _ [⟨"photo", "u1", none⟩]
    (by decide) (by decide) rfl (by decide)

/-! ## Claim C8 — a record exists only after its upload succeeded -/

/-- Records added by the shared upload-then-persist tail carry a key that
was uploaded by that same tail. -/
theorem uploadAndPersist_mem_records (w : World) (k : String) (video : VideoRecord)
    (env : PostEnv) (hk : video.fileKey = k) :
    ∀ v ∈ (uploadAndPersist w k video env).2.records,
      v ∈ w.records ∨ v.fileKey ∈ (uploadAndPersist w k video env).2.uploaded := by
  cases hu : env.uploadErr with
  | some e =>
      intro v hv
      simp only [uploadAndPersist, hu] at hv ⊢
      exact Or.inl hv
  | none =>
      cases hc : env.createErr with
      | some e =>
          intro v hv
          simp only [uploadAndPersist, hu, hc] at hv ⊢
          exact Or.inl hv
      | none =>
          intro v hv
          simp only [uploadAndPersist, hu, hc] at hv ⊢
          rcases List.mem_cons.mp hv with h | h
          · subst h
            exact Or.inr (by rw [hk]; exact List.mem_cons_self _ _)
          · exact Or.inl h

/-- A failing upload throws before anything is stored. -/
theorem uploadAndPersist_upload_fail (w : World) (k : String) (video : VideoRecord)
    (env : PostEnv) (e : String) (h : env.uploadErr = some e) :
    uploadAndPersist w k video env = (.jsonError 500 e, w) := by
  simp [uploadAndPersist, h]

/-- Every exit of the handler either leaves the world unchanged or goes
through the upload-then-persist tail with the record keyed by the
freshly generated storage key. -/
theorem POST_shape (req : PostRequest) (env : PostEnv) (w : World) :
    (POST req env w).2 = w
    ∨ ∃ k video, POST req env w = uploadAndPersist w k video env
        ∧ VideoRecord.fileKey video = k := by
  simp only [POST]
  split
  · exact Or.inl rfl
  split
  · exact Or.inl rfl
  split
  · exact Or.inl rfl
  · exact Or.inl rfl
  · split
    · exact Or.inl rfl
    · split
      · exact Or.inl rfl
      · exact Or.inr ⟨_, _, rfl, rfl⟩
  · split
    · exact Or.inl rfl
    · exact Or.inr ⟨_, _, rfl, rfl⟩
  · split
    · exact Or.inl rfl
    · exact Or.inr ⟨_, _, rfl, rfl⟩

/-- Claim C8: a `VideoRecord` is created only after the blob upload has
succeeded — every record present after a run was either already there or
carries a `fileKey` present among the uploaded keys; a failing upload
leaves the world exactly as it was (no metadata write), and so does a run
in which every media fetch fails. -/
theorem c8_record_implies_upload (req : PostRequest) (env : PostEnv) (w : World) :
    (∀ v ∈ (POST req env w).2.records,
        v ∈ w.records ∨ v.fileKey ∈ (POST req env w).2.uploaded)
    ∧ (∀ e, env.uploadErr = some e → (POST req env w).2 = w)
    ∧ ((∀ u, ∃ e, env.fetchMedia u = Except.error e) → (POST req env w).2 = w) := by
  refine ⟨?_, ?_, ?_⟩
  · rcases POST_shape req env w with h | ⟨k, video, hpost, hk⟩
    · rw [h]
      intro v hv
      exact Or.inl hv
    · rw [hpost]
      exact uploadAndPersist_mem_records w k video env hk
  · intro e he
    rcases POST_shape req env w with h | ⟨k, video, hpost, hk⟩
    · exact h
    · rw [hpost, uploadAndPersist_upload_fail w k video env e he]
  · intro hfetch
    simp only [POST]
    split
    · rfl
    split
    · rfl
    split
    · rfl
    · rfl
    · split
      · rfl
      · split
        · rfl
        · rename_i heq
          rw [(hfetch _).choose_spec] at heq
          simp [downloadFromUrl] at heq
    · split
      · rfl
      · rename_i heq
        rw [(hfetch _).choose_spec] at heq
        simp [downloadFromUrl] at heq
    · split
      · rfl
      · rename_i heq
        rw [(hfetch _).choose_spec] at heq
        simp [downloadFromUrl] at heq

/-- Claim C8 witness: a failing upload at a concrete request leaves the
world unchanged. -/
theorem c8_witness :
    (POST ⟨"https://www.youtube.com/watch?v=abc", some "720", none, some true⟩
        { sampleEnvDirect with uploadErr := some "boom" } ⟨[], []⟩).2
      = ⟨[], []⟩ :=
  (c8_record_implies_upload ⟨"https://www.youtube.com/watch?v=abc", some "720", none, some true⟩
      { sampleEnvDirect with uploadErr := some "boom" } ⟨[], []⟩).2.1 "boom" rfl
